import Mathlib

/-!
Verification of the kol-sentiment-mcp repository against its specification.

The Python sources are shallowly embedded:

* `app/services/masa_client.py` — the live-search polling loop of
  `perform_twitter_live_search` (lines 90–123) and the payload builder of
  `perform_twitter_hybrid_search` (lines 206–222).  HTTP transport is
  abstracted: the sequence of JSON bodies returned by the status endpoint is a
  function `Nat → StatusData`.
* `app/services/nlp_service.py` — `analyze_sentiment`,
  `batch_analyze_sentiment` and `classify_sentiment_distribution`.  The
  external TextBlob analysis and the regex cleanup are library calls outside
  this repository and are passed in as function parameters; Python floats are
  embedded as rationals.
* `app/handlers/kol_actions.py` — the `max_results` clamp of
  `search_kol_content`, the text-batch construction and counting of
  `analyze_kol_sentiment`, the topic tallying / ranking shared by
  `extract_kol_topics` and `get_kol_trends`, and the per-username fan-out loop
  of `get_kol_trends`.
-/

namespace KolSentiment

/-! ## Live search polling (masa_client.py, lines 90–123) -/

/-- JSON body returned by one GET of the status endpoint: the `status` field
and the optional `error` field read by `status_data.get("error", ...)`. -/
structure StatusData where
  status : String
  error : Option String
deriving DecidableEq

/-- Terminal outcome of the polling loop: `completed` models breaking out on
`status == "done"`, `jobFailed` models the `RuntimeError` raised on
`error`/`failed`, `timedOut` models the `RuntimeError` raised once
`retry_count >= max_retries`. -/
inductive PollOutcome where
  | completed
  | jobFailed (msg : String)
  | timedOut
deriving DecidableEq

/-- Observable trace of the polling loop: how many GETs of the status endpoint
were issued, how many `time.sleep` calls happened, and how the loop ended. -/
structure PollTrace where
  statusRequests : Nat
  sleeps : Nat
  outcome : PollOutcome
deriving DecidableEq

/-- The body of `while retry_count < max_retries:` in
`perform_twitter_live_search`.  `resp i` is the JSON body answered to the
`i`-th status request; `remaining` is `max_retries - retry_count`.  Each
non-terminal iteration issues one request and one `time.sleep(2)`. -/
def poll_from (resp : Nat → StatusData) (idx : Nat) : Nat → PollTrace
  | 0 => ⟨0, 0, .timedOut⟩
  | remaining + 1 =>
    let sd := resp idx
    if sd.status = "done" then ⟨1, 0, .completed⟩
    else if sd.status = "error" ∨ sd.status = "failed" then
      ⟨1, 0, .jobFailed (sd.error.getD "Unknown error")⟩
    else
      let t := poll_from resp (idx + 1) remaining
      ⟨t.statusRequests + 1, t.sleeps + 1, t.outcome⟩

/-- Source constant `max_retries = 30`. -/
def max_retries : Nat := 30

/-- Source constant: the argument of `time.sleep(2)`. -/
def sleep_interval : Nat := 2

/-- The polling phase of `perform_twitter_live_search`, starting with
`retry_count = 0`. -/
def live_search_poll (resp : Nat → StatusData) : PollTrace :=
  poll_from resp 0 max_retries

/-- The GET of the result endpoint is issued exactly when the loop broke out on
`done`; on `jobFailed` or `timedOut` a `RuntimeError` propagates first. -/
def fetches_result (t : PollTrace) : Bool :=
  match t.outcome with
  | .completed => true
  | _ => false

/-- Status sequence `[pending, pending, done]` (then `done` forever, which the
loop never reads). -/
def resp_ppd : Nat → StatusData := fun i =>
  if i < 2 then ⟨"pending", none⟩ else ⟨"done", none⟩

/-- Status sequence answering `pending` to every request. -/
def resp_all_pending : Nat → StatusData := fun _ => ⟨"pending", none⟩

/-- A status body that keeps the loop going: not `done`, `error` or `failed`. -/
def pending_like (sd : StatusData) : Prop :=
  sd.status ≠ "done" ∧ sd.status ≠ "error" ∧ sd.status ≠ "failed"

/-- C1: on `[pending, pending, done]` the client issues 3 status requests and 2
sleeps of the fixed 2-unit interval before fetching results; on 30 consecutive
`pending` responses it exhausts the 30-attempt retry budget, fails with the
timeout error and never fetches results. -/
theorem live_search_poll_pending_pending_done_and_timeout :
    (live_search_poll resp_ppd).statusRequests = 3 ∧
    (live_search_poll resp_ppd).sleeps = 2 ∧
    (live_search_poll resp_ppd).outcome = PollOutcome.completed ∧
    fetches_result (live_search_poll resp_ppd) = true ∧
    sleep_interval = 2 ∧
    (live_search_poll resp_all_pending).statusRequests = max_retries ∧
    (live_search_poll resp_all_pending).outcome = PollOutcome.timedOut ∧
    fetches_result (live_search_poll resp_all_pending) = false := by
  refine ⟨?_, ?_, ?_, ?_, ?_, ?_, ?_, ?_⟩ <;> decide

/-- Auxiliary: if the first `k` responses keep the loop going and the
`(k+1)`-st reports `error` or `failed`, the loop raises immediately after
`k + 1` status requests. -/
theorem poll_from_jobFailed (resp : Nat → StatusData) :
    ∀ (k fuel idx : Nat), k < fuel →
      (∀ j, j < k → pending_like (resp (idx + j))) →
      ((resp (idx + k)).status = "error" ∨ (resp (idx + k)).status = "failed") →
      poll_from resp idx fuel =
        ⟨k + 1, k, .jobFailed ((resp (idx + k)).error.getD "Unknown error")⟩ := by
  intro k
  induction k with
  | zero =>
    intro fuel idx hk _ herr
    obtain ⟨m, rfl⟩ : ∃ m, fuel = m + 1 := ⟨fuel - 1, by omega⟩
    have hnd : ¬ (resp idx).status = "done" := by
      rcases herr with h | h <;> simp [Nat.add_zero] at h <;> simp [h]
    have herr' : (resp idx).status = "error" ∨ (resp idx).status = "failed" := by
      simpa using herr
    simp [poll_from, hnd, herr']
  | succ k ih =>
    intro fuel idx hk hpend herr
    obtain ⟨m, rfl⟩ : ∃ m, fuel = m + 1 := ⟨fuel - 1, by omega⟩
    have hp0 : pending_like (resp idx) := by
      simpa using hpend 0 (Nat.succ_pos k)
    obtain ⟨h1, h2, h3⟩ := hp0
    have hrec := ih m (idx + 1) (by omega)
      (fun j hj => by
        have := hpend (j + 1) (by omega)
        simpa [Nat.add_comm, Nat.add_left_comm, Nat.add_assoc] using this)
      (by
        have : idx + 1 + k = idx + (k + 1) := by omega
        simpa [this] using herr)
    have hidx : idx + 1 + k = idx + (k + 1) := by omega
    simp [poll_from, h1, h2, h3, hrec, hidx]

/-- C2: when some status poll returns `error` or `failed` (all earlier polls
having kept the loop alive), the operation fails at once with the provider
message (`"Unknown error"` when absent): exactly `k + 1` status requests were
issued, no poll follows the failing one, and no result fetch is issued. -/
theorem live_search_poll_fails_immediately_on_error_status
    (resp : Nat → StatusData) (k : Nat)
    (hk : k < max_retries)
    (hpend : ∀ j, j < k → pending_like (resp j))
    (herr : (resp k).status = "error" ∨ (resp k).status = "failed") :
    live_search_poll resp =
      ⟨k + 1, k, .jobFailed ((resp k).error.getD "Unknown error")⟩ ∧
    fetches_result (live_search_poll resp) = false := by
  have h := poll_from_jobFailed resp k max_retries 0 hk
    (fun j hj => by simpa using hpend j hj) (by simpa using herr)
  rw [Nat.zero_add] at h
  refine ⟨h, ?_⟩
  simp [live_search_poll] at h ⊢
  rw [h]
  rfl

/-- Status sequence for the witness: one `pending`, then `failed` with
`{error: "rate limited"}`. -/
def resp_rate_limited : Nat → StatusData := fun i =>
  if i = 0 then ⟨"pending", none⟩ else ⟨"failed", some "rate limited"⟩

/-- Witness for C2 at a concrete input: second poll answers `failed` with
`{error: "rate limited"}`; the loop stops after 2 status requests carrying
that message and fetches nothing. -/
theorem live_search_poll_fails_immediately_on_error_status_witness :
    live_search_poll resp_rate_limited =
      ⟨2, 1, .jobFailed "rate limited"⟩ ∧
    fetches_result (live_search_poll resp_rate_limited) = false :=
  live_search_poll_fails_immediately_on_error_status resp_rate_limited 1
    (by decide)
    (fun j hj => by
      have : j = 0 := by omega
      subst this
      exact ⟨by decide, by decide, by decide⟩)
    (by decide)

/-! ## The max_results clamp (kol_actions.py, lines 59–60) -/

/-- Source line 60 of `search_kol_content`:
`max_results = min(max(1, max_results), 100)` over Python integers. -/
def clamp_max_results (max_results : ℤ) : ℤ :=
  min (max 1 max_results) 100

/-- C5: the clamped `max_results` always lies in `[1, 100]`: values below 1
become 1, values above 100 become 100, values already in range pass through
unchanged. -/
theorem clamp_max_results_in_range (n : ℤ) :
    1 ≤ clamp_max_results n ∧ clamp_max_results n ≤ 100 ∧
    (n < 1 → clamp_max_results n = 1) ∧
    (100 < n → clamp_max_results n = 100) ∧
    (1 ≤ n → n ≤ 100 → clamp_max_results n = n) := by
  unfold clamp_max_results
  rcases le_total 1 n with h | h <;> rcases le_total n 100 with h2 | h2 <;>
    simp [min_def, max_def] <;> omega

/-- Witness for C5 at concrete inputs: -5 is raised to 1, 150 is lowered to
100, 42 passes through. -/
theorem clamp_max_results_in_range_witness :
    clamp_max_results (-5) = 1 ∧ clamp_max_results 150 = 100 ∧
    clamp_max_results 42 = 42 :=
  ⟨(clamp_max_results_in_range (-5)).2.2.1 (by decide),
   (clamp_max_results_in_range 150).2.2.2.1 (by decide),
   (clamp_max_results_in_range 42).2.2.2.2 (by decide) (by decide)⟩

/-! ## Hybrid search payload (masa_client.py, lines 206–222) -/

/-- One weighted sub-query of the hybrid payload, e.g.
`{"query": similarity_query, "weight": similarity_weight}`. -/
structure QueryPart where
  query : String
  weight : ℚ
deriving DecidableEq

/-- The JSON body POSTed by `perform_twitter_hybrid_search`: the two nested
weighted sub-queries, `max_results`, and — only when present — the keyword
filter pair. -/
structure HybridPayload where
  similarity_query : QueryPart
  text_query : QueryPart
  max_results : ℤ
  keywords : Option (List String)
  keyword_operator : Option String
deriving DecidableEq

/-- Python truthiness of the `keywords` argument in `if keywords:`: neither
`None` nor the empty list. -/
def keywords_truthy : Option (List String) → Bool
  | none => false
  | some l => !l.isEmpty

/-- Payload construction of `perform_twitter_hybrid_search` (lines 206–222):
the dictionary literal plus the conditional
`if keywords: payload["keywords"] = ...; payload["keyword_operator"] = ...`. -/
def perform_twitter_hybrid_search_payload (similarity_query text_query : String)
    (similarity_weight text_weight : ℚ) (keywords : Option (List String))
    (keyword_operator : String) (max_results : ℤ) : HybridPayload :=
  { similarity_query := ⟨similarity_query, similarity_weight⟩
    text_query := ⟨text_query, text_weight⟩
    max_results := max_results
    keywords := if keywords_truthy keywords then keywords else none
    keyword_operator :=
      if keywords_truthy keywords then some keyword_operator else none }

/-- C8: the hybrid payload for `similarity_query="ai"`,
`text_query="ai agents"`, weights 0.7 / 0.3 nests
`similarity_query:{query:"ai", weight:0.7}` and
`text_query:{query:"ai agents", weight:0.3}` beside `max_results`; the keyword
filter fields are attached exactly when the `keywords` list is given and
non-empty. -/
theorem hybrid_search_payload_shape (kw : Option (List String))
    (op : String) (mr : ℤ) :
    (perform_twitter_hybrid_search_payload "ai" "ai agents" (7/10) (3/10)
        kw op mr).similarity_query = ⟨"ai", 7/10⟩ ∧
    (perform_twitter_hybrid_search_payload "ai" "ai agents" (7/10) (3/10)
        kw op mr).text_query = ⟨"ai agents", 3/10⟩ ∧
    (perform_twitter_hybrid_search_payload "ai" "ai agents" (7/10) (3/10)
        kw op mr).max_results = mr ∧
    ((perform_twitter_hybrid_search_payload "ai" "ai agents" (7/10) (3/10)
        kw op mr).keywords ≠ none ↔ ∃ l, kw = some l ∧ l ≠ []) ∧
    ((perform_twitter_hybrid_search_payload "ai" "ai agents" (7/10) (3/10)
        kw op mr).keyword_operator ≠ none ↔ ∃ l, kw = some l ∧ l ≠ []) := by
  refine ⟨rfl, rfl, rfl, ?_, ?_⟩ <;>
    · rcases kw with _ | l
      · simp [perform_twitter_hybrid_search_payload, keywords_truthy]
      · rcases l with _ | ⟨x, xs⟩ <;>
          simp [perform_twitter_hybrid_search_payload, keywords_truthy]

/-! ## Sentiment analysis (nlp_service.py, lines 37–130) -/

/-- Return value of `analyze_sentiment`: the dictionary with keys `sentiment`,
`polarity`, `subjectivity`, `text`, and — only on the exception path — an
`error` message. -/
structure SentimentResult where
  sentiment : String
  polarity : ℚ
  subjectivity : ℚ
  text : String
  error : Option String
deriving DecidableEq

/-- Body of `analyze_sentiment` after the initialization check (lines 49–82).
The regex cleanup (strip URLs, mentions, hashtags) is the parameter `clean`
and the TextBlob sentiment computation is the parameter `blob`, which may fail
(`Except.error` models a raised exception, caught by the `except` block); both
live outside this repository.  On success the label is thresholded at
`polarity > 0.1` / `polarity < -0.1`; on failure the function returns the
`unknown`/0/0 fallback.  Either way the returned `text` is the original,
uncleaned input. -/
def analyze_sentiment (clean : String → String)
    (blob : String → Except String (ℚ × ℚ)) (text : String) : SentimentResult :=
  match blob (clean text) with
  | .ok (polarity, subjectivity) =>
    { sentiment :=
        if polarity > 1/10 then "positive"
        else if polarity < -(1/10) then "negative"
        else "neutral"
      polarity := polarity
      subjectivity := subjectivity
      text := text
      error := none }
  | .error e =>
    { sentiment := "unknown"
      polarity := 0
      subjectivity := 0
      text := text
      error := some e }

/-- Source line 130: `[analyze_sentiment(text) for text in texts]`. -/
def batch_analyze_sentiment (clean : String → String)
    (blob : String → Except String (ℚ × ℚ)) (texts : List String) :
    List SentimentResult :=
  texts.map (analyze_sentiment clean blob)

/-- C10: `analyze_sentiment` is total (the embedding returns a result for
every input — the Python `except` block swallows any analysis failure); when
the underlying analysis fails it returns the `unknown`/0/0 record, and in
every case the returned record carries the original, uncleaned input text. -/
theorem analyze_sentiment_total_and_fallback (clean : String → String)
    (blob : String → Except String (ℚ × ℚ)) (text : String) :
    (analyze_sentiment clean blob text).text = text ∧
    (∀ e, blob (clean text) = .error e →
      analyze_sentiment clean blob text =
        ⟨"unknown", 0, 0, text, some e⟩) := by
  constructor
  · unfold analyze_sentiment
    rcases blob (clean text) with e | ⟨p, s⟩ <;> rfl
  · intro e he
    unfold analyze_sentiment
    rw [he]

/-- Witness for C10 at a concrete input: an analysis that always fails with
message `boom` yields the `unknown` fallback carrying the original text. -/
theorem analyze_sentiment_total_and_fallback_witness :
    analyze_sentiment id (fun _ => .error "boom") "great day" =
      ⟨"unknown", 0, 0, "great day", some "boom"⟩ :=
  (analyze_sentiment_total_and_fallback id (fun _ => .error "boom")
    "great day").2 "boom" rfl

/-! ## Sentiment distribution (nlp_service.py, lines 132–171) -/

/-- Return value of `classify_sentiment_distribution`: counts and percentages
per label plus batch means. -/
structure SentimentDistribution where
  positive : Nat
  neutral : Nat
  negative : Nat
  positive_percentage : ℚ
  neutral_percentage : ℚ
  negative_percentage : ℚ
  average_polarity : ℚ
  average_subjectivity : ℚ
deriving DecidableEq

/-- The all-zero dictionary returned for an empty batch (lines 142–152). -/
def zero_distribution : SentimentDistribution :=
  ⟨0, 0, 0, 0, 0, 0, 0, 0⟩

/-- Body of `classify_sentiment_distribution` (lines 132–171): early return of
the all-zero dictionary on an empty list, otherwise label counts via
`sum(1 for s in sentiments if s["sentiment"] == ...)`, percentages
`(count / total) * 100 if total > 0 else 0`, and arithmetic means. -/
def classify_sentiment_distribution (sentiments : List SentimentResult) :
    SentimentDistribution :=
  if sentiments.isEmpty then zero_distribution
  else
    let positive_count := sentiments.countP (fun s => s.sentiment == "positive")
    let neutral_count := sentiments.countP (fun s => s.sentiment == "neutral")
    let negative_count := sentiments.countP (fun s => s.sentiment == "negative")
    let total : ℚ := sentiments.length
    { positive := positive_count
      neutral := neutral_count
      negative := negative_count
      positive_percentage :=
        if 0 < total then (positive_count / total) * 100 else 0
      neutral_percentage :=
        if 0 < total then (neutral_count / total) * 100 else 0
      negative_percentage :=
        if 0 < total then (negative_count / total) * 100 else 0
      average_polarity := (sentiments.map (·.polarity)).sum / total
      average_subjectivity := (sentiments.map (·.subjectivity)).sum / total }

/-- C9: on the empty list `classify_sentiment_distribution` returns (rather
than raising) the distribution whose counts, percentages and averages are all
zero. -/
theorem classify_sentiment_distribution_empty :
    classify_sentiment_distribution [] = zero_distribution ∧
    (classify_sentiment_distribution []).positive = 0 ∧
    (classify_sentiment_distribution []).neutral = 0 ∧
    (classify_sentiment_distribution []).negative = 0 ∧
    (classify_sentiment_distribution []).positive_percentage = 0 ∧
    (classify_sentiment_distribution []).neutral_percentage = 0 ∧
    (classify_sentiment_distribution []).negative_percentage = 0 ∧
    (classify_sentiment_distribution []).average_polarity = 0 ∧
    (classify_sentiment_distribution []).average_subjectivity = 0 := by
  refine ⟨rfl, ?_, ?_, ?_, ?_, ?_, ?_, ?_, ?_⟩ <;> rfl

/-- Shorthand for the sum of the three label percentages of a batch. -/
def percentage_sum (sentiments : List SentimentResult) : ℚ :=
  (classify_sentiment_distribution sentiments).positive_percentage +
    (classify_sentiment_distribution sentiments).neutral_percentage +
    (classify_sentiment_distribution sentiments).negative_percentage

/-- Counterexample to C3 as stated: the non-empty batch consisting of one
`unknown`-labelled result (which `analyze_sentiment` produces on an internal
failure) has label percentages summing to 0, not 100. -/
theorem percentage_sum_not_100_on_unknown :
    [(⟨"unknown", 0, 0, "t", some "boom"⟩ : SentimentResult)] ≠ [] ∧
    percentage_sum [⟨"unknown", 0, 0, "t", some "boom"⟩] = 0 ∧
    percentage_sum [⟨"unknown", 0, 0, "t", some "boom"⟩] ≠ 100 := by
  refine ⟨by simp, ?_, ?_⟩ <;>
    · norm_num [percentage_sum, classify_sentiment_distribution,
        List.countP_cons, List.countP_nil]
      simp

/-- Counting helper: when every label in the batch is one of the three
classified labels, the three label counts partition the batch. -/
theorem countP_labels_eq_length (l : List SentimentResult)
    (h : ∀ s ∈ l, s.sentiment = "positive" ∨ s.sentiment = "neutral" ∨
      s.sentiment = "negative") :
    l.countP (fun s => s.sentiment == "positive") +
      l.countP (fun s => s.sentiment == "neutral") +
      l.countP (fun s => s.sentiment == "negative") = l.length := by
  induction l with
  | nil => simp
  | cons s t ih =>
    have hs := h s (List.mem_cons_self s t)
    have ht := ih (fun x hx => h x (List.mem_cons_of_mem s hx))
    rcases hs with hs | hs | hs <;>
      simp [List.countP_cons, hs] <;> omega

/-- C3 (amended): whenever the batch is non-empty and every result carries one
of the three classified labels, the three percentages sum to exactly 100; on
the empty batch they sum to 0.  (Batches containing other labels, such as the
`unknown` fallback label, are excluded: their percentages sum to less than
100.) -/
theorem percentage_sum_100_of_classified (l : List SentimentResult)
    (hne : l ≠ [])
    (h : ∀ s ∈ l, s.sentiment = "positive" ∨ s.sentiment = "neutral" ∨
      s.sentiment = "negative") :
    percentage_sum l = 100 ∧ percentage_sum [] = 0 := by
  refine ⟨?_, by
    norm_num [percentage_sum, classify_sentiment_distribution,
      zero_distribution]⟩
  have hlen : 0 < l.length := List.length_pos.mpr hne
  have hT : (0 : ℚ) < (l.length : ℚ) := by exact_mod_cast hlen
  have hT0 : (l.length : ℚ) ≠ 0 := ne_of_gt hT
  have hcount := countP_labels_eq_length l h
  have hcountQ : ((l.countP (fun s => s.sentiment == "positive")) : ℚ) +
      (l.countP (fun s => s.sentiment == "neutral")) +
      (l.countP (fun s => s.sentiment == "negative")) = (l.length : ℚ) := by
    exact_mod_cast hcount
  have hisE : l.isEmpty = false := by
    simpa [List.isEmpty_iff] using hne
  unfold percentage_sum classify_sentiment_distribution
  simp only [hisE, Bool.false_eq_true, if_false, if_pos hT]
  field_simp
  linarith [hcountQ]

/-- Witness for C3 at a concrete input: a batch with one result of each
classified label has percentages summing to 100. -/
theorem percentage_sum_100_of_classified_witness :
    percentage_sum [⟨"positive", 1/2, 0, "p", none⟩,
      ⟨"neutral", 0, 0, "n", none⟩, ⟨"negative", -(1/2), 0, "m", none⟩] = 100 ∧
    percentage_sum [] = 0 :=
  percentage_sum_100_of_classified
    [⟨"positive", 1/2, 0, "p", none⟩, ⟨"neutral", 0, 0, "n", none⟩,
      ⟨"negative", -(1/2), 0, "m", none⟩]
    (by simp)
    (by
      intro s hs
      simp only [List.mem_cons, List.not_mem_nil, or_false] at hs
      rcases hs with rfl | rfl | rfl
      · exact Or.inl rfl
      · exact Or.inr (Or.inl rfl)
      · exact Or.inr (Or.inr rfl))

/-! ## Text batches from provider items (kol_actions.py, lines 135 and 301) -/

/-- One raw provider search-result item.  The handlers inspect only its
`Content` field (`'Content' in result` / `result.get('Content', '')`), held
here as `content`; all other keys of the JSON object are never read. -/
structure ProviderItem where
  content : Option String
deriving DecidableEq

/-- The list comprehension
`[result.get('Content', '') for result in results if 'Content' in result]`
shared by `analyze_kol_sentiment`, `extract_kol_topics`,
`analyze_kol_insights` and `get_kol_trends`. -/
def extract_texts (results : List ProviderItem) : List String :=
  (results.filter (fun r => r.content.isSome)).map (fun r => r.content.getD "")

/-- Aggregate branch of `analyze_kol_sentiment` (query given, lines 121–146):
the fields of the returned dictionary that depend on the provider items. -/
structure SentimentQueryResponse where
  sentiment_results : List SentimentResult
  sentiment_distribution : SentimentDistribution
  result_count : Nat
deriving DecidableEq

/-- Lines 135–144 of `analyze_kol_sentiment`: build the text batch from the
provider items, analyze it, and report `result_count = len(texts)`. -/
def analyze_kol_sentiment_query (clean : String → String)
    (blob : String → Except String (ℚ × ℚ)) (results : List ProviderItem) :
    SentimentQueryResponse :=
  let texts := extract_texts results
  let sentiment_results := batch_analyze_sentiment clean blob texts
  { sentiment_results := sentiment_results
    sentiment_distribution := classify_sentiment_distribution sentiment_results
    result_count := texts.length }

/-- C7: provider items lacking a `Content` field are silently dropped when the
text batch is built — removing such an item does not change the batch — and
the reported `result_count` equals the length of the post-filter text list
(the number of items that do carry `Content`), not the raw item count. -/
theorem result_count_is_post_filter_length (clean : String → String)
    (blob : String → Except String (ℚ × ℚ)) (results : List ProviderItem) :
    (analyze_kol_sentiment_query clean blob results).result_count =
      (results.filter (fun r => r.content.isSome)).length ∧
    (analyze_kol_sentiment_query clean blob results).result_count ≤
      results.length ∧
    (∀ pre post item, item.content = none →
      extract_texts (pre ++ item :: post) = extract_texts (pre ++ post)) := by
  refine ⟨?_, ?_, ?_⟩
  · simp [analyze_kol_sentiment_query, extract_texts]
  · simp only [analyze_kol_sentiment_query, extract_texts, List.length_map]
    exact List.length_filter_le _ _
  · intro pre post item h
    simp [extract_texts, List.filter_append, List.filter_cons, h]

/-- Witness for C7 at a concrete input: of two provider items only one carries
`Content`, so the reported count is 1 and dropping the bare item leaves the
batch unchanged. -/
theorem result_count_is_post_filter_length_witness :
    (analyze_kol_sentiment_query id (fun _ => .ok (0, 0))
      [⟨some "gm"⟩, ⟨none⟩]).result_count = 1 ∧
    extract_texts ([⟨some "gm"⟩] ++ ⟨none⟩ :: []) =
      extract_texts ([⟨some "gm"⟩] ++ []) :=
  ⟨(result_count_is_post_filter_length id (fun _ => .ok (0, 0))
      [⟨some "gm"⟩, ⟨none⟩]).1,
   (result_count_is_post_filter_length id (fun _ => .ok (0, 0))
      [⟨some "gm"⟩, ⟨none⟩]).2.2 [⟨some "gm"⟩] [] ⟨none⟩ rfl⟩

/-! ## Topic tallying and ranking (kol_actions.py, lines 183–192, 333–338) -/

/-- One step of `topic_counts[topic] = topic_counts.get(topic, 0) + 1` on a
Python dict embedded as an association list in key-insertion order: an
existing key is bumped in place, a new key is appended. -/
def bump_topic : List (String × Nat) → String → List (String × Nat)
  | [], t => [(t, 1)]
  | (k, v) :: rest, t =>
    if k = t then (k, v + 1) :: rest else (k, v) :: bump_topic rest t

/-- The accumulation loop `for topic in all_topics: ...` building the
occurrence tally; the resulting association list carries the keys in
first-seen order, as a Python dict does. -/
def topic_counts (topics : List String) : List (String × Nat) :=
  topics.foldl bump_topic []

/-- Ordering used by `sorted(topic_counts.items(), key=lambda x: x[1],
reverse=True)`: descending by count.  The relation is non-strict, so a stable
sort keeps equal-count entries in their original order. -/
def count_ge (a b : String × Nat) : Prop := b.2 ≤ a.2

instance : DecidableRel count_ge :=
  fun a b => inferInstanceAs (Decidable (b.2 ≤ a.2))

instance : IsTotal (String × Nat) count_ge :=
  ⟨fun a b => le_total b.2 a.2⟩

instance : IsTrans (String × Nat) count_ge :=
  ⟨fun _ _ _ h1 h2 => le_trans h2 h1⟩

/-- The ranked topic list: Python `sorted(..., key=lambda x: x[1],
reverse=True)` is a stable sort, embedded as a stable insertion sort under
`count_ge`.  `extract_kol_topics` and `get_kol_trends` then take a prefix of
this list (`top_topics` / `top_trends`). -/
def rank_topics (topics : List String) : List (String × Nat) :=
  List.insertionSort count_ge (topic_counts topics)

/-- C6: the ranked topic list is a permutation of the tally sorted descending
by count, and within each count value the entries appear exactly in the order
the tally accumulated them (first-seen order) — stability, not a lexicographic
tiebreak. -/
theorem rank_topics_sorted_desc_and_stable (topics : List String) :
    (rank_topics topics).Sorted count_ge ∧
    List.Perm (rank_topics topics) (topic_counts topics) ∧
    ∀ c : Nat, (rank_topics topics).filter (fun q => q.2 == c) =
      (topic_counts topics).filter (fun q => q.2 == c) := by
  refine ⟨List.sorted_insertionSort count_ge _,
    List.perm_insertionSort count_ge _, ?_⟩
  intro c
  simp only [rank_topics]
  set tc := topic_counts topics with htc
  set p : String × Nat → Bool := fun q => q.2 == c with hp
  have hpair : (tc.filter p).Pairwise count_ge := by
    apply List.pairwise_of_forall_mem_list
    intro a ha b hb
    have ha2 : a.2 = c := by simpa [hp] using (List.mem_filter.mp ha).2
    have hb2 : b.2 = c := by simpa [hp] using (List.mem_filter.mp hb).2
    simp [count_ge, ha2, hb2]
  have hsub : List.Sublist (tc.filter p) (List.insertionSort count_ge tc) :=
    List.sublist_insertionSort hpair (List.filter_sublist tc)
  have hsub2 : List.Sublist ((tc.filter p).filter p)
      ((List.insertionSort count_ge tc).filter p) := hsub.filter p
  have hself : (tc.filter p).filter p = tc.filter p :=
    List.filter_eq_self.mpr (fun a ha => (List.mem_filter.mp ha).2)
  rw [hself] at hsub2
  have hperm : List.Perm ((List.insertionSort count_ge tc).filter p)
      (tc.filter p) := (List.perm_insertionSort count_ge tc).filter p
  exact (hsub2.eq_of_length hperm.length_eq.symm).symm

/-! ## Per-KOL trend aggregation (kol_actions.py, lines 265–351) -/

/-- Shape of the value bound to `results = search_results.get('results', [])`
for one username: either not a list (the `continue` branch of line 297) or a
list of provider items. -/
inductive SearchOutcome where
  | notList
  | items (results : List ProviderItem)
deriving DecidableEq

/-- One value of the `kol_results` dict: the full-analysis entry carries
`content_count`, `topics` and `sentiment_distribution` and no `error` key; the
no-content entry carries `content_count = 0` and an `error`; the
exception entry carries only `error`.  Absent dict keys are `none`. -/
structure KolEntry where
  content_count : Option Nat
  topics : Option (List String)
  sentiment_distribution : Option SentimentDistribution
  error : Option String
deriving DecidableEq

/-- Python dict assignment `m[k] = v` on a dict embedded as an association
list in key-insertion order: overwrite in place or append. -/
def dict_insert (m : List (String × KolEntry)) (k : String) (v : KolEntry) :
    List (String × KolEntry) :=
  match m with
  | [] => [(k, v)]
  | (k0, v0) :: rest =>
    if k0 = k then (k0, v) :: rest else (k0, v0) :: dict_insert rest k v

/-- Python dict lookup `m[k]` returning `none` for a missing key. -/
def dict_get (m : List (String × KolEntry)) (k : String) : Option KolEntry :=
  match m with
  | [] => none
  | (k0, v0) :: rest => if k0 = k then some v0 else dict_get rest k

/-- Body of `for username in usernames:` in `get_kol_trends` (lines 286–331).
The accumulator carries `(all_topics, all_sentiments, kol_results)`.  `search`
models the `search_kol_content` call for one username, `Except.error`
modelling a raised exception caught by the per-username `except` block;
`topics_of` models `extract_topics(text, max_topics=5)` (total: the Python
function catches its own exceptions). -/
def process_kol (search : String → Except String SearchOutcome)
    (clean : String → String) (blob : String → Except String (ℚ × ℚ))
    (topics_of : String → List String)
    (acc : List String × List SentimentResult × List (String × KolEntry))
    (username : String) :
    List String × List SentimentResult × List (String × KolEntry) :=
  match search username with
  | .error e =>
    (acc.1, acc.2.1, dict_insert acc.2.2 username ⟨none, none, none, some e⟩)
  | .ok .notList => acc
  | .ok (.items results) =>
    let texts := extract_texts results
    if texts.isEmpty then
      (acc.1, acc.2.1, dict_insert acc.2.2 username
        ⟨some 0, none, none, some "No content found"⟩)
    else
      let sentiment_results := batch_analyze_sentiment clean blob texts
      let kol_topics := (texts.map topics_of).flatten
      (acc.1 ++ kol_topics, acc.2.1 ++ sentiment_results,
        dict_insert acc.2.2 username
          ⟨some texts.length, some kol_topics,
            some (classify_sentiment_distribution sentiment_results), none⟩)

/-- Result dictionary of `get_kol_trends` (lines 342–351), restricted to the
computed fields. -/
structure TrendsResult where
  top_trends : List (String × Nat)
  kol_count : Nat
  analyzed_count : Nat
  overall_sentiment : SentimentDistribution
  kol_results : List (String × KolEntry)
deriving DecidableEq

/-- The aggregate phase of `get_kol_trends`: fold the per-username loop over
the accumulator, tally and rank the pooled topics, take the `max_trends`
prefix, and classify the pooled sentiments. -/
def get_kol_trends (search : String → Except String SearchOutcome)
    (clean : String → String) (blob : String → Except String (ℚ × ℚ))
    (topics_of : String → List String) (usernames : List String)
    (max_trends : Nat) : TrendsResult :=
  let acc := usernames.foldl (process_kol search clean blob topics_of)
    ([], [], [])
  { top_trends := (rank_topics acc.1).take max_trends
    kol_count := usernames.length
    analyzed_count := (acc.2.2.filter (fun kv => kv.2.error.isNone)).length
    overall_sentiment := classify_sentiment_distribution acc.2.1
    kol_results := acc.2.2 }

/-- C4: over usernames `["a", "b"]`, when `"a"`'s search succeeds with items
carrying content and `"b"`'s search raises, the failure is recorded as an
error entry under `"b"` and does not abort `"a"`: `kol_results` still holds
`"a"`'s full analysis (content count, topics, sentiment distribution, no error
key) next to `"b"`'s error entry. -/
theorem get_kol_trends_isolates_failures
    (search : String → Except String SearchOutcome)
    (clean : String → String) (blob : String → Except String (ℚ × ℚ))
    (topics_of : String → List String)
    (itemsA : List ProviderItem) (msg : String)
    (ha : search "a" = .ok (.items itemsA))
    (hne : extract_texts itemsA ≠ [])
    (hb : search "b" = .error msg) :
    dict_get (get_kol_trends search clean blob topics_of
        ["a", "b"] 10).kol_results "a" =
      some ⟨some (extract_texts itemsA).length,
        some ((extract_texts itemsA).map topics_of).flatten,
        some (classify_sentiment_distribution
          (batch_analyze_sentiment clean blob (extract_texts itemsA))),
        none⟩ ∧
    dict_get (get_kol_trends search clean blob topics_of
        ["a", "b"] 10).kol_results "b" =
      some ⟨none, none, none, some msg⟩ := by
  have hE : (extract_texts itemsA).isEmpty = false := by
    simpa [List.isEmpty_iff] using hne
  constructor <;>
    simp [get_kol_trends, process_kol, ha, hb, hE, dict_insert, dict_get]

/-- Search behaviour for the witness: `"a"` returns one content-bearing item,
every other username raises `rate limited`. -/
def search_w : String → Except String SearchOutcome := fun u =>
  if u = "a" then .ok (.items [⟨some "good vibes"⟩]) else .error "rate limited"

/-- Witness for C4 at a concrete input: with `"b"`'s search raising
`rate limited`, the trends result still carries `"a"`'s full analysis of its
single text plus the error entry for `"b"`. -/
theorem get_kol_trends_isolates_failures_witness :
    dict_get (get_kol_trends search_w id (fun _ => .ok (1/2, 1/2))
        (fun _ => ["crypto"]) ["a", "b"] 10).kol_results "a" =
      some ⟨some (extract_texts [⟨some "good vibes"⟩]).length,
        some ((extract_texts [⟨some "good vibes"⟩]).map
          (fun _ => ["crypto"])).flatten,
        some (classify_sentiment_distribution
          (batch_analyze_sentiment id (fun _ => .ok (1/2, 1/2))
            (extract_texts [⟨some "good vibes"⟩]))),
        none⟩ ∧
    dict_get (get_kol_trends search_w id (fun _ => .ok (1/2, 1/2))
        (fun _ => ["crypto"]) ["a", "b"] 10).kol_results "b" =
      some ⟨none, none, none, some "rate limited"⟩ :=
  get_kol_trends_isolates_failures search_w id (fun _ => .ok (1/2, 1/2))
    (fun _ => ["crypto"]) [⟨some "good vibes"⟩] "rate limited"
    rfl (by decide) rfl

end KolSentiment
